import Mathlib

/-!
# Verification of the pgweb-pulumi service provisioning compiler

This file gives a shallow embedding of the `FargateService` component of the
pgweb-pulumi repository (`src/components/fargate-service.ts`) together with the
static tables and type declarations it consumes
(`src/components/constants.ts`, `src/components/types.ts`), and proves the
specification claims about it.

Modelling conventions:
* Pulumi `Input<string>` / resolved outputs become plain `String`s; a
  reference to another resource attribute (`.arn`, `.id`, `.name`) that is
  only resolved by the provisioning engine is modelled symbolically by the
  helpers `arnRef` / `idRef` / `nameRef` applied to the logical name of that
  resource.
* Each Pulumi resource constructor call becomes a Lean structure value
  recording the logical name and the argument fields the source actually
  sets.  `JSON.stringify` of the container-definition array is modelled by
  the structured list itself.
* Values produced outside the component and consumed by it (component name,
  stack name, AWS region, the hex output of the `random.RandomId` resource)
  are explicit parameters of the construction function.
* The TypeScript field `namespace` is a Lean keyword, so it is called `ns`
  here.
-/

/-- The `source` discriminator of `SecretFromInput`
(`parameter-store` or `secrets-manager` in `types.ts`). -/
inductive SecretSource where
  | parameterStore
  | secretsManager
deriving DecidableEq, Repr

/-- Shape of `SecretFromInput` from `src/components/fargate-service.ts` /
`src/components/types.ts` (identical in both). -/
structure SecretFromInput where
  name : String
  valueFromArn : String
  source : SecretSource
  key : Option String
deriving DecidableEq, Repr

/-- One statement of an IAM policy document.  In the source a statement field
`Action` / `Resource` may be a single string or an array; both are modelled
as lists (a single string becoming a singleton). -/
structure PolicyStatement where
  Effect : String
  Principal : Option String
  Action : List String
  Resource : List String
deriving DecidableEq, Repr

/-- An IAM policy document (`{Version, Statement}`). -/
structure PolicyDocument where
  Version : String
  Statement : List PolicyStatement
deriving DecidableEq, Repr

/-- Embedding of `aws.cloudwatch.LogGroup` as constructed by the component. -/
structure LogGroup where
  logicalName : String
  retentionInDays : Nat
deriving DecidableEq, Repr

/-- Embedding of `aws.iam.Role` as constructed by the component. -/
structure Role where
  logicalName : String
  description : Option String
  assumeRolePolicy : PolicyDocument
deriving DecidableEq, Repr

/-- Embedding of `aws.iam.RolePolicyAttachment` as constructed by the component. -/
structure RolePolicyAttachment where
  logicalName : String
  policyArn : String
  role : String
deriving DecidableEq, Repr

/-- Embedding of `aws.iam.RolePolicy` as constructed by the component. -/
structure RolePolicy where
  logicalName : String
  role : String
  physicalName : Option String
  policy : PolicyDocument
deriving DecidableEq, Repr

/-- Embedding of `aws.ec2.SecurityGroup` as constructed by the component. -/
structure SecurityGroup where
  logicalName : String
  vpcId : String
  description : String
deriving DecidableEq, Repr

/-- Embedding of `aws.ec2.SecurityGroupRule` as constructed by the component. -/
structure SecurityGroupRule where
  logicalName : String
  type : String
  securityGroupId : String
  protocol : String
  fromPort : Nat
  toPort : Nat
  cidrBlocks : List String
  sourceSecurityGroupId : Option String
deriving DecidableEq, Repr

/-- The target-group health check block. -/
structure HealthCheck where
  path : String
  healthyThreshold : Nat
  unhealthyThreshold : Nat
  interval : Nat
  timeout : Nat
deriving DecidableEq, Repr

/-- Embedding of `aws.lb.TargetGroup` as constructed by the component. -/
structure TargetGroup where
  logicalName : String
  deregistrationDelay : Nat
  vpcId : String
  port : Nat
  targetType : String
  protocol : String
  slowStart : Nat
  healthCheck : HealthCheck
deriving DecidableEq, Repr

/-- A listener-rule action as emitted by the in-repo constructor
(type `forward` with `targetGroupArn`, no `order` field set). -/
structure LRAction where
  type : String
  order : Option Nat
  targetGroupArn : Option String
deriving DecidableEq, Repr

/-- Embedding of `aws.lb.ListenerRule` as constructed by the component. -/
structure ListenerRule where
  logicalName : String
  listenerArn : String
  conditionPathPatterns : List String
  actions : List LRAction
  deleteBeforeReplace : Bool
deriving DecidableEq, Repr

/-- Embedding of `aws.types.input.ecs.ServiceLoadBalancer` (the `albConfig` value). -/
structure ServiceLoadBalancer where
  containerPort : Nat
  targetGroupArn : String
  containerName : String
deriving DecidableEq, Repr

/-- One entry of the `portMappings` array of a container definition. -/
structure PortMapping where
  containerPort : Nat
  protocol : Option String
deriving DecidableEq, Repr

/-- The `logConfiguration` block of a container definition; `optGroup`,
`optRegion` and `optStreamPfx` are the `awslogs-group`, `awslogs-region`
and `awslogs-stream-prefix` entries of its `options` map. -/
structure LogConfiguration where
  logDriver : String
  optGroup : String
  optRegion : String
  optStreamPfx : String
deriving DecidableEq, Repr

/-- One element of the serialized `containerDefinitions` array built inside
the `aws.ecs.TaskDefinition` call. -/
structure ContainerDefinition where
  name : String
  image : String
  portMappings : List PortMapping
  logConfiguration : Option LogConfiguration
deriving DecidableEq, Repr

/-- Embedding of `aws.ecs.TaskDefinition` as constructed by the component. -/
structure TaskDefinition where
  logicalName : String
  family : String
  executionRoleArn : String
  taskRoleArn : String
  networkMode : String
  requiresCompatibilities : List String
  cpu : String
  memory : String
  containerDefinitions : List ContainerDefinition
deriving DecidableEq, Repr

/-- Embedding of `aws.ecs.Service` as constructed by the component.  `dependsOn` holds
the logical name of the resource passed in the `dependsOn` resource option
(the listener rule), when one was passed. -/
structure ServiceResource where
  logicalName : String
  cluster : String
  launchType : String
  desiredCount : Nat
  deploymentMinimumHealthyPercent : Nat
  loadBalancers : Option (List ServiceLoadBalancer)
  taskDefinition : String
  waitForSteadyState : Bool
  networkSecurityGroups : List String
  networkSubnets : List String
  dependsOn : Option String
deriving DecidableEq, Repr

/-- Shape of `FargateServiceArgs` from `src/components/fargate-service.ts` (the
version present in the `src/` directory of the repository: single `containerImage`/`port`,
ALB integration requested by supplying `albSecurityGroupId`).  The
TypeScript field `namespace` is called `ns` here. -/
structure FargateServiceArgs where
  albListenerArn : String
  albSecurityGroupId : Option String
  clusterName : String
  containerImage : String
  cpu : Option Nat
  logRetention : Option Nat
  memory : Option Nat
  ns : Option String
  port : Nat
  repositoryCredentialsArn : Option String
  secrets : Option (List SecretFromInput)
  subnetIds : List String
  taskPolicy : Option PolicyDocument
  vpcId : String
deriving DecidableEq, Repr

/-- Everything the `FargateService` constructor creates, one field per
resource (optional resources are `Option`-valued), mirroring the body of
the constructor in `src/components/fargate-service.ts`. -/
structure FargateOutputs where
  logGroup : LogGroup
  executionRole : Role
  executionPolicyBasic : RolePolicyAttachment
  executionPolicyLogs : RolePolicy
  secretsManagerPolicy : Option RolePolicy
  parameterStorePolicy : Option RolePolicy
  repositorySecretsPolicy : Option RolePolicy
  taskRole : Role
  taskRolePolicy : Option RolePolicy
  securityGroup : SecurityGroup
  egressRule : SecurityGroupRule
  ingressFromAlb : Option SecurityGroupRule
  targetGroup : Option TargetGroup
  listenerRule : Option ListenerRule
  albConfig : Option ServiceLoadBalancer
  randomIdByteLength : Nat
  taskDefinition : TaskDefinition
  service : ServiceResource
deriving DecidableEq, Repr

/-- Symbolic stand-in for the unresolved `.arn` output of the resource with
the given logical name. -/
def arnRef (logicalName : String) : String :=
  logicalName ++ ".arn"

/-- Symbolic stand-in for the unresolved `.id` output of the resource with
the given logical name. -/
def idRef (logicalName : String) : String :=
  logicalName ++ ".id"

/-- Symbolic stand-in for the unresolved `.name` output of the resource
with the given logical name. -/
def nameRef (logicalName : String) : String :=
  logicalName ++ ".name"

/-- Insertion-order deduplication of a list of strings, keeping the first
occurrence of each element: the semantics of the construct `[...new Set(arns)]` in the source. -/
def jsSetDedupAux (seen : List String) : List String → List String
  | [] => []
  | x :: xs =>
    if seen.contains x then jsSetDedupAux seen xs
    else x :: jsSetDedupAux (x :: seen) xs

/-- Semantics of `[...new Set(arns)]` from the source: unique elements in first-seen
order. -/
def jsSetDedup (l : List String) : List String :=
  jsSetDedupAux [] l

/-- The trust policy shared by the execution role and the task role. -/
def ecsAssumeRolePolicy : PolicyDocument :=
  { Version := "2012-10-17"
    Statement := [
      { Effect := "Allow"
        Principal := some ("ecs-tasks.amazonaws.com")
        Action := ["sts:AssumeRole"]
        Resource := [] }] }

/-- The `FargateService` constructor of `src/components/fargate-service.ts`,
translated statement by statement.  `name` is the component resource name,
`stack` the Pulumi stack name, `region` the resolved AWS region and
`randomHex` the resolved `hex` output of the `random.RandomId` resource the
constructor creates for the task-definition family. -/
def buildFargateService (name stack region randomHex : String)
    (args : FargateServiceArgs) : FargateOutputs :=
  -- const defaults = { cpu: 256, logRetention: 14, memory: 512 };
  -- const { ... } = { ...defaults, ...args };
  let cpu := args.cpu.getD 256
  let logRetention := args.logRetention.getD 14
  let memory := args.memory.getD 512
  -- const prefix = namespace ?? `${name}-${pulumi.getStack()}`;
  let pfx := args.ns.getD (name ++ "-" ++ stack)
  let logGroup : LogGroup :=
    { logicalName := pfx ++ "-log-group", retentionInDays := logRetention }
  let executionRole : Role :=
    { logicalName := pfx ++ "-execution-role"
      description := some ("Allows the AWS ECS service to create and manage the "
        ++ pfx ++ " service")
      assumeRolePolicy := ecsAssumeRolePolicy }
  let executionPolicyBasic : RolePolicyAttachment :=
    { logicalName := "basic-ecs-policy"
      policyArn := "arn:aws:iam::aws:policy/service-role/AmazonECSTaskExecutionRolePolicy"
      role := executionRole.logicalName }
  let executionPolicyLogs : RolePolicy :=
    { logicalName := "logs-policy"
      role := executionRole.logicalName
      physicalName := none
      policy :=
        { Version := "2012-10-17"
          Statement := [
            { Effect := "Allow"
              Principal := none
              Action := ["logs:CreateLogStream", "logs:PutLogEvents"]
              Resource := [arnRef logGroup.logicalName ++ ":*"] }] } }
  -- if (secrets) { ... }
  let smSecrets : List String := match args.secrets with
    | none => []
    | some secrets =>
      (secrets.filter (fun s => s.source == SecretSource.secretsManager)).map
        (fun s => s.valueFromArn)
  let psSecrets : List String := match args.secrets with
    | none => []
    | some secrets =>
      (secrets.filter (fun s => s.source == SecretSource.parameterStore)).map
        (fun s => s.valueFromArn)
  -- `if (secrets)` followed by `if (smSecrets.length > 0)`: when `secrets`
  -- is absent `smSecrets` is `[]`, so the two nested guards collapse to a
  -- single length test.
  let secretsManagerPolicy : Option RolePolicy :=
    if 0 < smSecrets.length then
      some
        { logicalName := "secrets-manager-policy"
          role := executionRole.logicalName
          physicalName := none
          policy :=
            { Version := "2012-10-17"
              Statement := [
                { Effect := "Allow"
                  Principal := none
                  Action := ["secretsmanager:GetSecretValue"]
                  Resource := jsSetDedup smSecrets }] } }
    else none
  let parameterStorePolicy : Option RolePolicy :=
    if 0 < psSecrets.length then
      some
        { logicalName := "parameter-store-policy"
          role := executionRole.logicalName
          physicalName := none
          policy :=
            { Version := "2012-10-17"
              Statement := [
                { Effect := "Allow"
                  Principal := none
                  Action := ["ssm:GetParameter*"]
                  Resource := psSecrets }] } }
    else none
  let repositorySecretsPolicy : Option RolePolicy :=
    args.repositoryCredentialsArn.map (fun repoArn =>
      { logicalName := "container-repo-creds-policy"
        role := executionRole.logicalName
        physicalName := some ("repo-secret-policy")
        policy :=
          { Version := "2012-10-17"
            Statement := [
              { Effect := "Allow"
                Principal := none
                Action := ["secretsmanager:GetSecretValue"]
                Resource := [repoArn] }] } })
  let taskRole : Role :=
    { logicalName := pfx ++ "-task-role"
      description := none
      assumeRolePolicy := ecsAssumeRolePolicy }
  let taskRolePolicy : Option RolePolicy :=
    args.taskPolicy.map (fun pol =>
      { logicalName := pfx ++ "-role-policy"
        role := taskRole.logicalName
        physicalName := none
        policy := pol })
  let securityGroup : SecurityGroup :=
    { logicalName := pfx ++ "-service-sg"
      vpcId := args.vpcId
      description := "Controls access to the " ++ pfx ++ " service" }
  let egressRule : SecurityGroupRule :=
    { logicalName := "egress-rule"
      type := "egress"
      securityGroupId := idRef securityGroup.logicalName
      protocol := "-1"
      fromPort := 0
      toPort := 0
      cidrBlocks := ["0.0.0.0/0"]
      sourceSecurityGroupId := none }
  -- if (albSecurityGroupId) { ... }
  let ingressFromAlb : Option SecurityGroupRule :=
    args.albSecurityGroupId.map (fun albSg =>
      { logicalName := "ingress-from-alb-rule"
        type := "ingress"
        securityGroupId := idRef securityGroup.logicalName
        protocol := "TCP"
        fromPort := args.port
        toPort := args.port
        cidrBlocks := []
        sourceSecurityGroupId := some albSg })
  let targetGroup : Option TargetGroup :=
    args.albSecurityGroupId.map (fun _ =>
      { logicalName := pfx ++ "-tg"
        deregistrationDelay := 10
        vpcId := args.vpcId
        port := args.port
        targetType := "ip"
        protocol := "HTTP"
        slowStart := 30
        healthCheck :=
          { path := "/"
            healthyThreshold := 4
            unhealthyThreshold := 2
            interval := 15
            timeout := 10 } })
  let listenerRule : Option ListenerRule :=
    args.albSecurityGroupId.map (fun _ =>
      { logicalName := pfx ++ "-listener-rule"
        listenerArn := args.albListenerArn
        conditionPathPatterns := ["/*"]
        actions := [
          { type := "forward"
            order := none
            targetGroupArn := some (arnRef (pfx ++ "-tg")) }]
        deleteBeforeReplace := true })
  let albConfig : Option ServiceLoadBalancer :=
    args.albSecurityGroupId.map (fun _ =>
      { containerPort := args.port
        targetGroupArn := arnRef (pfx ++ "-tg")
        containerName := "container" })
  let taskDefinition : TaskDefinition :=
    { logicalName := pfx ++ "-task-definition"
      family := pfx ++ "-" ++ randomHex
      executionRoleArn := arnRef executionRole.logicalName
      taskRoleArn := arnRef taskRole.logicalName
      networkMode := "awsvpc"
      requiresCompatibilities := ["FARGATE"]
      cpu := toString cpu
      memory := toString memory
      containerDefinitions := [
        { name := "container"
          image := args.containerImage
          portMappings := [{ containerPort := args.port, protocol := none }]
          logConfiguration := some
            { logDriver := "awslogs"
              optGroup := nameRef logGroup.logicalName
              optRegion := region
              optStreamPfx := "container" } }] }
  let service : ServiceResource :=
    { logicalName := pfx ++ "-service"
      cluster := args.clusterName
      launchType := "FARGATE"
      desiredCount := 1
      deploymentMinimumHealthyPercent := 100
      loadBalancers := albConfig.map (fun c => [c])
      taskDefinition := arnRef taskDefinition.logicalName
      waitForSteadyState := true
      networkSecurityGroups := [idRef securityGroup.logicalName]
      networkSubnets := args.subnetIds
      dependsOn := listenerRule.map (fun lr => lr.logicalName) }
  { logGroup := logGroup
    executionRole := executionRole
    executionPolicyBasic := executionPolicyBasic
    executionPolicyLogs := executionPolicyLogs
    secretsManagerPolicy := secretsManagerPolicy
    parameterStorePolicy := parameterStorePolicy
    repositorySecretsPolicy := repositorySecretsPolicy
    taskRole := taskRole
    taskRolePolicy := taskRolePolicy
    securityGroup := securityGroup
    egressRule := egressRule
    ingressFromAlb := ingressFromAlb
    targetGroup := targetGroup
    listenerRule := listenerRule
    albConfig := albConfig
    randomIdByteLength := 4
    taskDefinition := taskDefinition
    service := service }

/-- The resources the component attaches to its security group. -/
def sgRules (o : FargateOutputs) : List SecurityGroupRule :=
  o.egressRule :: o.ingressFromAlb.toList

/-- The ingress rules of the security group of the component. -/
def ingressRules (o : FargateOutputs) : List SecurityGroupRule :=
  (sgRules o).filter (fun r => r.type == "ingress")

/-- All `Resource` entries of an inline role policy. -/
def rolePolicyResources (p : RolePolicy) : List String :=
  (p.policy.Statement.map (fun s => s.Resource)).flatten

/-- The `Resource` list of the secrets-manager policy, when that policy was
created. -/
def smPolicyResources (o : FargateOutputs) : Option (List String) :=
  o.secretsManagerPolicy.map rolePolicyResources

/-- The `Resource` list of the parameter-store policy, when that policy was
created. -/
def psPolicyResources (o : FargateOutputs) : Option (List String) :=
  o.parameterStorePolicy.map rolePolicyResources

/-- The logical identities of every resource the constructor creates, in
source order. -/
def logicalNames (o : FargateOutputs) : List String :=
  [o.logGroup.logicalName, o.executionRole.logicalName,
    o.executionPolicyBasic.logicalName, o.executionPolicyLogs.logicalName]
  ++ (o.secretsManagerPolicy.map (fun p => p.logicalName)).toList
  ++ (o.parameterStorePolicy.map (fun p => p.logicalName)).toList
  ++ (o.repositorySecretsPolicy.map (fun p => p.logicalName)).toList
  ++ [o.taskRole.logicalName]
  ++ (o.taskRolePolicy.map (fun p => p.logicalName)).toList
  ++ [o.securityGroup.logicalName, o.egressRule.logicalName]
  ++ (o.ingressFromAlb.map (fun r => r.logicalName)).toList
  ++ (o.targetGroup.map (fun t => t.logicalName)).toList
  ++ (o.listenerRule.map (fun l => l.logicalName)).toList
  ++ [o.taskDefinition.logicalName, o.service.logicalName]

/-- The set of inline policy documents the constructor emits, in source
order. -/
def policyDocs (o : FargateOutputs) : List PolicyDocument :=
  [o.executionRole.assumeRolePolicy, o.executionPolicyLogs.policy]
  ++ (o.secretsManagerPolicy.map (fun p => p.policy)).toList
  ++ (o.parameterStorePolicy.map (fun p => p.policy)).toList
  ++ (o.repositorySecretsPolicy.map (fun p => p.policy)).toList
  ++ [o.taskRole.assumeRolePolicy]
  ++ (o.taskRolePolicy.map (fun p => p.policy)).toList

/-- The explicit creation-prerequisite edges of the emitted graph.  An edge
`(a, b)` means resource `a` must not be created until resource `b` exists
(the `dependsOn` resource option of the service). -/
def dependencyEdges (o : FargateOutputs) : List (String × String) :=
  (o.service.dependsOn.map (fun d => (o.service.logicalName, d))).toList

/-- A creation order (a list of logical names, earliest first) respects a
set of dependency edges when for every edge `(a, b)` the prerequisite `b`
appears strictly before `a`. -/
def respectsOrder (edges : List (String × String)) (sched : List String) : Prop :=
  ∀ e ∈ edges, sched.indexOf e.2 < sched.indexOf e.1

instance (edges : List (String × String)) (sched : List String) :
    Decidable (respectsOrder edges sched) :=
  decidable_of_iff (∀ e ∈ edges, sched.indexOf e.2 < sched.indexOf e.1) Iff.rfl

/-- The load-balancer bindings of the emitted service (empty when ALB
integration is absent). -/
def loadBalancerList (o : FargateOutputs) : List ServiceLoadBalancer :=
  o.service.loadBalancers.getD []

/-! ## The newer `FargateService` interface

`src/components/types.ts` and `src/components/constants.ts` declare the
interface of a newer `FargateService` implementation (multi-container
`containers`, `albConfig` with `ruleActions`, validation against
`validCpuMemoryCombinations`), and `src/index.ts` calls it, but the
implementation file itself is not in the repository snapshot.  The types
below are translated from `types.ts`; behaviour that only exists in the
missing implementation is modelled from the spec and marked as such. -/

/-- A listener-rule action supplied by the caller: `ruleActions?:
Omit<...ListenerRuleAction, order>[]` from `types.ts`.
The type-specific settings of the action (e.g. the `authenticateOidc` block) are
kept as one uninterpreted `config` payload. -/
structure RuleActionInput where
  type : String
  config : String
deriving DecidableEq, Repr

/-- A listener-rule action as emitted into the generated rule: an input
action plus its assigned `order`, or the final `forward` action. -/
structure OrderedAction where
  order : Nat
  type : String
  config : String
  targetGroupArn : Option String
deriving DecidableEq, Repr

/-- The ordered form of a supplied pre-forward action. -/
def orderedOf (o : Nat) (a : RuleActionInput) : OrderedAction :=
  { order := o, type := a.type, config := a.config, targetGroupArn := none }

/-- The final `forward` action of a generated listener rule. -/
def forwardActionAt (o : Nat) (targetGroupArn : String) : OrderedAction :=
  { order := o, type := "forward", config := "", targetGroupArn := some targetGroupArn }

/-- Assigns consecutive `order` values, starting at `start`, to a list of
input actions. -/
def assignOrders (start : Nat) : List RuleActionInput → List OrderedAction
  | [] => []
  | a :: rest => orderedOf start a :: assignOrders (start + 1) rest

/-- Modelled from the spec: the listener-rule action-list builder of the
newer `FargateService` (implementation missing from the snapshot; its
input shape is `ruleActions` of `types.ts`).  Per the spec it assigns
1-based sequential `order` to every entry of the supplied pre-forward
actions and then appends a final `forward` action (to the new target
group) at the next order index. -/
def listenerRuleActions (acts : List RuleActionInput) (targetGroupArn : String) :
    List OrderedAction :=
  assignOrders 1 acts ++ [forwardActionAt (acts.length + 1) targetGroupArn]

/-- One `environment` entry of a container definition (`types.ts`). -/
structure EnvironmentVariable where
  name : String
  value : String
deriving DecidableEq, Repr

/-- Shape of `FargateContainerDefinition` from `types.ts`: a container spec with
repository-native fields (`secrets`, `environment`, `logGroupName`)
replacing the raw AWS ones.  Optional array fields are modelled as plain
lists (absent = `[]`). -/
structure FargateContainerDefinition where
  name : String
  image : String
  cpu : Option Nat
  memory : Option Nat
  portMappings : List PortMapping
  environment : List EnvironmentVariable
  secrets : List SecretFromInput
  logGroupName : Option String
deriving DecidableEq, Repr

/-- A resolved secret entry of a target container definition
(`{name, valueFrom}`). -/
structure TaskSecret where
  name : String
  valueFrom : String
deriving DecidableEq, Repr

/-- One element of the serialized container-definition array of the newer
task definition. -/
structure CompiledContainerDefinition where
  name : String
  image : String
  cpu : Option Nat
  memory : Option Nat
  portMappings : List PortMapping
  environment : List EnvironmentVariable
  secrets : List TaskSecret
  logConfiguration : Option LogConfiguration
deriving DecidableEq, Repr

/-- Modelled from the spec: the resolution of one `SecretFromInput` into
the platform secret-injection shape (`envVarName` gets the secret value
at `sourceArn[:jsonKey]`), part of the container-definition compiler whose
implementation is missing from the snapshot. -/
def resolveSecret (s : SecretFromInput) : TaskSecret :=
  { name := s.name
    valueFrom :=
      match s.key with
      | some k => s.valueFromArn ++ ":" ++ k
      | none => s.valueFromArn }

/-- Modelled from the spec: the container-definition compiler of the newer
`FargateService` (implementation missing from the snapshot; its input shape
is `FargateContainerDefinition` of `types.ts`).  It translates one
container spec into the target shape: secrets resolved, a log-configuration
block emitted exactly when `logGroupName` is set (platform log driver,
the group reference, the deployment region, the container name as stream
prefix), and all other container-level fields passed through unchanged. -/
def compileContainer (region : String) (c : FargateContainerDefinition) :
    CompiledContainerDefinition :=
  { name := c.name
    image := c.image
    cpu := c.cpu
    memory := c.memory
    portMappings := c.portMappings
    environment := c.environment
    secrets := c.secrets.map resolveSecret
    logConfiguration := c.logGroupName.map (fun g =>
      { logDriver := "awslogs"
        optGroup := g
        optRegion := region
        optStreamPfx := c.name }) }

/-- Modelled from the spec: `compile(containers) -> [TargetContainerDefinition]`,
one-to-one and order-preserving over the input list. -/
def compileContainers (region : String) (cs : List FargateContainerDefinition) :
    List CompiledContainerDefinition :=
  cs.map (compileContainer region)

/-- The `portMapping` field of `ServiceAlbConfiguration` (`types.ts`):
which port on which container (by name) the ALB routes to. -/
structure AlbPortMapping where
  containerName : String
  containerPort : Nat
deriving DecidableEq, Repr

/-- Shape of `ServiceAlbConfiguration` from `types.ts`. -/
structure ServiceAlbConfiguration where
  healthCheckConfig : Option HealthCheck
  listenerArn : String
  ruleActions : Option (List RuleActionInput)
  rulePriority : Option Nat
  portMapping : AlbPortMapping
  securityGroupId : String
deriving DecidableEq, Repr

/-- Shape of `FargateServiceArgs` from `types.ts` (the newer interface).  The
TypeScript field `namespace` is called `ns` here. -/
structure NewFargateServiceArgs where
  albConfig : Option ServiceAlbConfiguration
  clusterName : Option String
  containers : List FargateContainerDefinition
  cpu : Option Nat
  memory : Option Nat
  ns : Option String
  subnetIds : List String
  taskPolicy : Option PolicyDocument
  vpcId : String
deriving DecidableEq, Repr

/-- Shape of `FargateServiceArgsWithDefaults` from `types.ts`: the argument record
with `cpu`, `memory` and `namespace` resolved to concrete values. -/
structure FargateServiceArgsWithDefaults where
  albConfig : Option ServiceAlbConfiguration
  clusterName : Option String
  containers : List FargateContainerDefinition
  cpu : Nat
  memory : Nat
  ns : String
  subnetIds : List String
  taskPolicy : Option PolicyDocument
  vpcId : String
deriving DecidableEq, Repr

/-- Modelled from the spec: the defaulting step of the newer
`FargateService` (implementation missing from the snapshot).  Applies
`cpu = 256`, `memory = 512` and the generated
`namespace = <RESOURCE_NAME>-<STACK_NAME>` documented in `types.ts` before
anything else runs. -/
def applyDefaults (name stack : String) (args : NewFargateServiceArgs) :
    FargateServiceArgsWithDefaults :=
  { albConfig := args.albConfig
    clusterName := args.clusterName
    containers := args.containers
    cpu := args.cpu.getD 256
    memory := args.memory.getD 512
    ns := args.ns.getD (name ++ "-" ++ stack)
    subnetIds := args.subnetIds
    taskPolicy := args.taskPolicy
    vpcId := args.vpcId }

/-- Table `validCpuMemoryCombinations` from `src/components/constants.ts`: the
fixed table of permitted Fargate task-level `<cpu>x<memory>` pairs. -/
def validCpuMemoryCombinations : List String :=
  ["256x512", "256x1024", "256x2048",
   "512x1024", "512x2048", "512x3072", "512x4096",
   "1024x2048", "1024x3072", "1024x4096", "1024x5120", "1024x6144",
   "1024x7168", "1024x8192",
   "2048x4096", "2048x5120", "2048x6144", "2048x7168", "2048x8192",
   "2048x9216", "2048x10240", "2048x11264", "2048x12288", "2048x13312",
   "2048x14336", "2048x15360", "2048x16384",
   "4096x8192", "4096x9216", "4096x10240", "4096x11264", "4096x12288",
   "4096x13312", "4096x14336", "4096x15360", "4096x16384", "4096x17408",
   "4096x18432", "4096x19456", "4096x20480", "4096x21504", "4096x22528",
   "4096x23552", "4096x24576", "4096x25600", "4096x26624", "4096x27648",
   "4096x28672", "4096x29696", "4096x30720"]

/-- The `<cpu>x<memory>` membership key for the combination table. -/
def comboKey (cpu memory : Nat) : String :=
  toString cpu ++ "x" ++ toString memory

/-- Holds when `m` literally contains `v`: the claim-level reading of "the failure
message names the value". -/
def mentions (m v : String) : Prop :=
  v.data <:+: m.data

/-- Modelled from the spec: the violation message for an invalid
cpu/memory pair, which must name both values. -/
def invalidComboMessage (cpu memory : Nat) : String :=
  toString cpu ++ " CPU units and " ++ toString memory
    ++ "MB is not a valid CPU/memory combination"

/-- Total `cpu` reservation across the container specs (absent = 0). -/
def sumContainerCpu (cs : List FargateContainerDefinition) : Nat :=
  (cs.map (fun c => c.cpu.getD 0)).sum

/-- Total `memory` reservation across the container specs (absent = 0). -/
def sumContainerMemory (cs : List FargateContainerDefinition) : Nat :=
  (cs.map (fun c => c.memory.getD 0)).sum

/-- Modelled from the spec: the validator of the newer `FargateService`
(implementation missing from the snapshot).  All violations are collected
against the fully-resolved spec: cpu/memory pair membership in the
canonical table, per-container cpu/memory sums, namespace length,
listener-rule priority range, the container-name part of the ALB port mapping
reference, and container-name uniqueness. -/
def validationErrors (spec : FargateServiceArgsWithDefaults) : List String :=
  (if comboKey spec.cpu spec.memory ∈ validCpuMemoryCombinations then []
   else [invalidComboMessage spec.cpu spec.memory])
  ++ (if sumContainerCpu spec.containers ≤ spec.cpu then []
      else ["Total CPU reserved for containers (" ++ toString (sumContainerCpu spec.containers)
        ++ ") exceeds the CPU allocated for the service (" ++ toString spec.cpu ++ ")"])
  ++ (if sumContainerMemory spec.containers ≤ spec.memory then []
      else ["Total memory reserved for containers (" ++ toString (sumContainerMemory spec.containers)
        ++ ") exceeds the memory allocated for the service (" ++ toString spec.memory ++ ")"])
  ++ (if spec.ns.length ≤ 22 then []
      else ["Namespace " ++ spec.ns ++ " must be no longer than 22 characters"])
  ++ (match spec.albConfig with
      | none => []
      | some cfg =>
        (match cfg.rulePriority with
         | none => []
         | some p =>
           if 1 ≤ p ∧ p ≤ 50000 then []
           else ["Rule priority " ++ toString p ++ " must be between 1 and 50000"])
        ++ (if (spec.containers.map (fun c => c.name)).contains cfg.portMapping.containerName
            then []
            else ["Container " ++ cfg.portMapping.containerName
              ++ " referenced by the ALB port mapping is not defined"]))
  ++ (if (spec.containers.map (fun c => c.name)).Nodup then []
      else ["Container names must be unique"])

/-- Modelled from the spec: `validate(spec) -> Ok(NormalizedSpec) |
Err(list of violation messages)`.  Fails with the complete violation list
whenever it is non-empty. -/
def validate (spec : FargateServiceArgsWithDefaults) :
    Except (List String) FargateServiceArgsWithDefaults :=
  match validationErrors spec with
  | [] => .ok spec
  | errs => .error errs

/-- The generated listener rule of the newer `FargateService`, carrying the
ordered action chain. -/
structure NewListenerRule where
  logicalName : String
  listenerArn : String
  conditionPathPatterns : List String
  actions : List OrderedAction
  priority : Option Nat
deriving DecidableEq, Repr

/-- The artifacts of the newer load-balancer integration builder. -/
structure NewAlbArtifacts where
  targetGroup : TargetGroup
  listenerRule : NewListenerRule
  serviceLoadBalancer : ServiceLoadBalancer
deriving DecidableEq, Repr

/-- Modelled from the spec: the load-balancer integration builder of the
newer `FargateService` (implementation missing from the snapshot).  Target
group of type `ip`, protocol HTTP on the mapped container port, short
deregistration delay and slow-start window, health check copied from
`healthCheckConfig` when given; listener rule with the catch-all path
condition, the ordered action chain, and the caller-supplied priority when
given. -/
def buildAlbArtifacts (ns : String) (cfg : ServiceAlbConfiguration) :
    NewAlbArtifacts :=
  let tgName := ns ++ "-tg"
  { targetGroup :=
      { logicalName := tgName
        deregistrationDelay := 10
        vpcId := ""
        port := cfg.portMapping.containerPort
        targetType := "ip"
        protocol := "HTTP"
        slowStart := 30
        healthCheck := cfg.healthCheckConfig.getD
          { path := "/"
            healthyThreshold := 4
            unhealthyThreshold := 2
            interval := 15
            timeout := 10 } }
    listenerRule :=
      { logicalName := ns ++ "-listener-rule"
        listenerArn := cfg.listenerArn
        conditionPathPatterns := ["/*"]
        actions := listenerRuleActions (cfg.ruleActions.getD []) (arnRef tgName)
        priority := cfg.rulePriority }
    serviceLoadBalancer :=
      { containerPort := cfg.portMapping.containerPort
        targetGroupArn := arnRef tgName
        containerName := cfg.portMapping.containerName } }

/-- The resource graph of the newer `FargateService`, reduced to the parts
the spec claims are about. -/
structure NewServiceGraph where
  containerDefinitions : List CompiledContainerDefinition
  alb : Option NewAlbArtifacts
  taskCpu : String
  taskMemory : String
  serviceDependsOn : Option String
deriving DecidableEq, Repr

/-- Modelled from the spec: the part of the newer `FargateService` compiler
pipeline that runs on the already-defaulted spec (implementation missing
from the snapshot).  Validates, and only on success derives the resource
graph; on any violation it returns the aggregate error and no resource
descriptor. -/
def compileResolved (region : String) (spec : FargateServiceArgsWithDefaults) :
    Except (List String) NewServiceGraph :=
  match validate spec with
  | .error errs => .error errs
  | .ok spec =>
    .ok
      { containerDefinitions := compileContainers region spec.containers
        alb := spec.albConfig.map (buildAlbArtifacts spec.ns)
        taskCpu := toString spec.cpu
        taskMemory := toString spec.memory
        serviceDependsOn := spec.albConfig.map (fun _ => spec.ns ++ "-listener-rule") }

/-- Modelled from the spec: the newer `FargateService` compiler pipeline
(implementation missing from the snapshot): defaults first, then
validation, then graph derivation. -/
def compileService (name stack region : String) (args : NewFargateServiceArgs) :
    Except (List String) NewServiceGraph :=
  compileResolved region (applyDefaults name stack args)

/-! ## Concrete inputs used by the witnesses -/

/-- A minimal argument record for the in-repo constructor: no ALB
integration, no secrets, everything defaultable omitted. -/
def baseArgs : FargateServiceArgs :=
  { albListenerArn := "arn:aws:elasticloadbalancing:ap-southeast-2:123456789012:listener/app/test-alb/abc/def"
    albSecurityGroupId := none
    clusterName := "test-cluster"
    containerImage := "sosedoff/pgweb"
    cpu := none
    logRetention := none
    memory := none
    ns := none
    port := 8081
    repositoryCredentialsArn := none
    secrets := none
    subnetIds := ["subnet-1", "subnet-2"]
    taskPolicy := none
    vpcId := "vpc-1aa478ffc" }

/-- The same input with ALB integration requested. -/
def albArgs : FargateServiceArgs :=
  { baseArgs with albSecurityGroupId := some ("sg-9879a8e7dacd") }

/-- A secrets-manager secret ARN used twice with different JSON keys. -/
def smArn : String :=
  "arn:aws:secretsmanager:ap-southeast-2:123456789012:secret:db-creds"

/-- Input whose secrets list references `smArn` twice (different keys). -/
def dupSmArgs : FargateServiceArgs :=
  { baseArgs with
    secrets := some [
      { name := "DB_USER", valueFromArn := smArn
        source := SecretSource.secretsManager, key := some ("username") },
      { name := "DB_PASS", valueFromArn := smArn
        source := SecretSource.secretsManager, key := some ("password") }] }

/-- A parameter-store parameter ARN used twice. -/
def psArn : String :=
  "arn:aws:ssm:ap-southeast-2:123456789012:parameter/db-url"

/-- Input whose secrets list references `psArn` twice. -/
def dupPsArgs : FargateServiceArgs :=
  { baseArgs with
    secrets := some [
      { name := "DB_URL", valueFromArn := psArn
        source := SecretSource.parameterStore, key := none },
      { name := "DB_URL_AGAIN", valueFromArn := psArn
        source := SecretSource.parameterStore, key := none }] }

/-- The pgweb container spec passed by `src/index.ts`. -/
def pgwebContainer : FargateContainerDefinition :=
  { name := "pgweb"
    image := "sosedoff/pgweb"
    cpu := none
    memory := none
    portMappings := [{ containerPort := 8081, protocol := some ("tcp") }]
    environment := []
    secrets := []
    logGroupName := some ("asd") }

/-- Newer-interface input whose explicit cpu/memory pair (300, 512) is not
in the combination table. -/
def badComboArgs : NewFargateServiceArgs :=
  { albConfig := none
    clusterName := some ("test-cluster")
    containers := [pgwebContainer]
    cpu := some 300
    memory := none
    ns := some ("pgweb-dev")
    subnetIds := ["subnet-1"]
    taskPolicy := none
    vpcId := "vpc-1aa478ffc" }

/-- Newer-interface input with cpu, memory and namespace all omitted. -/
def defaultedArgs : NewFargateServiceArgs :=
  { badComboArgs with cpu := none, memory := none, ns := none }

/-- A concrete authentication action (shape of the `authAction` built in
`src/index.ts`). -/
def oidcAction : RuleActionInput :=
  { type := "authenticate-oidc", config := "okta-oidc-settings" }

/-- A second concrete pre-forward action. -/
def fixedAction : RuleActionInput :=
  { type := "fixed-response", config := "maintenance-page" }

/-! ## Helper lemmas -/

theorem jsSetDedupAux_count (a : String) (l : List String) : ∀ seen : List String,
    (jsSetDedupAux seen l).count a = if a ∈ l ∧ a ∉ seen then 1 else 0 := by
  induction l with
  | nil => intro seen; simp [jsSetDedupAux]
  | cons x xs ih =>
    intro seen
    by_cases hx : seen.contains x
    · rw [jsSetDedupAux, if_pos hx, ih]
      by_cases hax : a = x
      · subst hax
        have hmem : a ∈ seen := by
          simpa using hx
        simp [hmem]
      · simp [hax]
    · rw [jsSetDedupAux, if_neg hx]
      have hxseen : x ∉ seen := by
        simpa using hx
      by_cases hax : a = x
      · subst hax
        rw [List.count_cons]
        rw [ih]
        simp [hxseen]
      · rw [List.count_cons]
        rw [ih]
        have hxa : ¬x = a := fun h => hax h.symm
        simp [hax, hxa, List.mem_cons]

theorem jsSetDedup_count (a : String) (l : List String) :
    (jsSetDedup l).count a = if a ∈ l then 1 else 0 := by
  rw [jsSetDedup, jsSetDedupAux_count]
  simp

theorem assignOrders_length (l : List RuleActionInput) : ∀ start : Nat,
    (assignOrders start l).length = l.length := by
  induction l with
  | nil => intro start; simp [assignOrders]
  | cons a rest ih => intro start; simp [assignOrders, ih]

theorem assignOrders_getElem? (l : List RuleActionInput) : ∀ (start i : Nat),
    (assignOrders start l)[i]? = (l[i]?).map (fun a => orderedOf (start + i) a) := by
  induction l with
  | nil => intro start i; simp [assignOrders]
  | cons a rest ih =>
    intro start i
    cases i with
    | zero => simp [assignOrders]
    | succ j =>
      rw [assignOrders]
      simp only [List.getElem?_cons_succ]
      rw [ih]
      have harith : start + 1 + j = start + (j + 1) := by omega
      rw [harith]

/-! ## Claim theorems -/

/-- C6: if ALB integration is supplied (`albSecurityGroupId` present), the
security group of the service receives exactly one ingress rule, allowing TCP
on the container port of the integration and sourced only from the ALB
security group (a security-group reference, no CIDR block); if ALB
integration is absent, the security group has no ingress rule at all. -/
theorem claim6_single_alb_ingress_rule
    (name stack region randomHex : String) (args : FargateServiceArgs) :
    ingressRules (buildFargateService name stack region randomHex args)
      = (args.albSecurityGroupId.map (fun sg =>
          { logicalName := "ingress-from-alb-rule"
            type := "ingress"
            securityGroupId := idRef ((args.ns.getD (name ++ "-" ++ stack)) ++ "-service-sg")
            protocol := "TCP"
            fromPort := args.port
            toPort := args.port
            cidrBlocks := []
            sourceSecurityGroupId := some sg })).toList := by
  cases h : args.albSecurityGroupId with
  | none => simp [buildFargateService, ingressRules, sgRules, h]
  | some sg => simp [buildFargateService, ingressRules, sgRules, h]

/-- C8: the compiler is deterministic with respect to everything outside
the normalized spec: for one and the same argument record, the logical
resource identities, the inline policy documents and the dependency edges
of the produced graph do not depend on the generated random task-family
suffix, so two invocations on an identical normalized spec produce a
structurally identical resource graph. -/
theorem claim8_deterministic_graph
    (name stack region hex1 hex2 : String) (args : FargateServiceArgs) :
    logicalNames (buildFargateService name stack region hex1 args)
      = logicalNames (buildFargateService name stack region hex2 args)
    ∧ policyDocs (buildFargateService name stack region hex1 args)
      = policyDocs (buildFargateService name stack region hex2 args)
    ∧ dependencyEdges (buildFargateService name stack region hex1 args)
      = dependencyEdges (buildFargateService name stack region hex2 args) := by
  refine ⟨rfl, rfl, rfl⟩

/-- C10: whenever a load-balancer binding is emitted, its `containerName`
names a container present in the container-definition array of the task definition
array and its `containerPort` is among the declared port mappings of that
container. -/
theorem claim10_binding_references_existing_container
    (name stack region randomHex : String) (args : FargateServiceArgs) :
    ((loadBalancerList (buildFargateService name stack region randomHex args)).all
      (fun lb =>
        (buildFargateService name stack region randomHex args).taskDefinition.containerDefinitions.any
          (fun cd => cd.name == lb.containerName
            && cd.portMappings.any (fun pm => pm.containerPort == lb.containerPort)))) = true := by
  cases h : args.albSecurityGroupId with
  | none => simp [buildFargateService, loadBalancerList, h]
  | some sg => simp [buildFargateService, loadBalancerList, h]

/-- C2: whenever ALB integration is requested, the emitted service records
the listener rule as an explicit creation prerequisite (`dependsOn`), the
dependency graph contains the corresponding edge, and therefore in every
creation order that respects the produced dependency edges the listener
rule is created strictly before the compute service. -/
theorem claim2_service_after_listener_rule
    (name stack region randomHex : String) (args : FargateServiceArgs)
    (sg : String) (hsg : args.albSecurityGroupId = some sg)
    (sched : List String)
    (hresp : respectsOrder
      (dependencyEdges (buildFargateService name stack region randomHex args)) sched) :
    ((buildFargateService name stack region randomHex args).listenerRule.isSome = true)
    ∧ (buildFargateService name stack region randomHex args).service.dependsOn
        = some ((args.ns.getD (name ++ "-" ++ stack)) ++ "-listener-rule")
    ∧ ((args.ns.getD (name ++ "-" ++ stack)) ++ "-service",
        (args.ns.getD (name ++ "-" ++ stack)) ++ "-listener-rule")
        ∈ dependencyEdges (buildFargateService name stack region randomHex args)
    ∧ sched.indexOf ((args.ns.getD (name ++ "-" ++ stack)) ++ "-listener-rule")
        < sched.indexOf ((args.ns.getD (name ++ "-" ++ stack)) ++ "-service") := by
  have hedges : dependencyEdges (buildFargateService name stack region randomHex args)
      = [((args.ns.getD (name ++ "-" ++ stack)) ++ "-service",
          (args.ns.getD (name ++ "-" ++ stack)) ++ "-listener-rule")] := by
    simp [buildFargateService, dependencyEdges, hsg]
  refine ⟨?_, ?_, ?_, ?_⟩
  · simp [buildFargateService, hsg]
  · simp [buildFargateService, hsg]
  · rw [hedges]; exact List.mem_singleton.mpr rfl
  · have hmem := List.mem_singleton.mpr
      (rfl : ((args.ns.getD (name ++ "-" ++ stack)) ++ "-service",
        (args.ns.getD (name ++ "-" ++ stack)) ++ "-listener-rule")
        = ((args.ns.getD (name ++ "-" ++ stack)) ++ "-service",
          (args.ns.getD (name ++ "-" ++ stack)) ++ "-listener-rule"))
    exact hresp _ (hedges ▸ hmem)

/-- C2 witness: the theorem applied to a concrete ALB-integrated input and
a concrete creation order that respects the produced edges. -/
theorem claim2_witness :
    ((buildFargateService ("pgweb") ("dev") ("ap-southeast-2") ("abcd1234") albArgs).listenerRule.isSome = true)
    ∧ (buildFargateService ("pgweb") ("dev") ("ap-southeast-2") ("abcd1234") albArgs).service.dependsOn
        = some ((albArgs.ns.getD ("pgweb" ++ "-" ++ "dev")) ++ "-listener-rule")
    ∧ ((albArgs.ns.getD ("pgweb" ++ "-" ++ "dev")) ++ "-service",
        (albArgs.ns.getD ("pgweb" ++ "-" ++ "dev")) ++ "-listener-rule")
        ∈ dependencyEdges (buildFargateService ("pgweb") ("dev") ("ap-southeast-2") ("abcd1234") albArgs)
    ∧ List.indexOf ((albArgs.ns.getD ("pgweb" ++ "-" ++ "dev")) ++ "-listener-rule")
        ["pgweb-dev-listener-rule", "pgweb-dev-service"]
      < List.indexOf ((albArgs.ns.getD ("pgweb" ++ "-" ++ "dev")) ++ "-service")
        ["pgweb-dev-listener-rule", "pgweb-dev-service"] :=
  claim2_service_after_listener_rule ("pgweb") ("dev") ("ap-southeast-2") ("abcd1234")
    albArgs ("sg-9879a8e7dacd") rfl
    ["pgweb-dev-listener-rule", "pgweb-dev-service"] (by decide)

/-- C4: secrets-manager policy generation is idempotent under duplicate
source ARNs: when the secrets list mentions the same secrets-manager ARN
two or more times (possibly with different JSON keys), the generated
secrets-manager policy exists and its `Resource` list contains exactly one
entry for that ARN. -/
theorem claim4_sm_policy_dedups
    (name stack region randomHex : String) (args : FargateServiceArgs)
    (l : List SecretFromInput) (arn : String)
    (hs : args.secrets = some l)
    (hdup : 2 ≤ ((l.filter (fun s => s.source == SecretSource.secretsManager)).map
        (fun s => s.valueFromArn)).count arn) :
    smPolicyResources (buildFargateService name stack region randomHex args)
      = some (jsSetDedup ((l.filter (fun s => s.source == SecretSource.secretsManager)).map
          (fun s => s.valueFromArn)))
    ∧ (jsSetDedup ((l.filter (fun s => s.source == SecretSource.secretsManager)).map
        (fun s => s.valueFromArn))).count arn = 1 := by
  have hmem : arn ∈ (l.filter (fun s => s.source == SecretSource.secretsManager)).map
      (fun s => s.valueFromArn) := by
    by_contra hno
    rw [List.count_eq_zero_of_not_mem hno] at hdup
    omega
  have hlen : 0 < ((l.filter (fun s => s.source == SecretSource.secretsManager)).map
      (fun s => s.valueFromArn)).length :=
    List.length_pos_of_mem hmem
  have hex : ∃ x ∈ l, x.source = SecretSource.secretsManager := by
    obtain ⟨s, hsfil, -⟩ := List.mem_map.mp hmem
    obtain ⟨hsl, hsrc⟩ := List.mem_filter.mp hsfil
    exact ⟨s, hsl, by simpa using hsrc⟩
  constructor
  · simp [buildFargateService, smPolicyResources, rolePolicyResources, hs, hlen]
    exact hex
  · rw [jsSetDedup_count, if_pos hmem]

/-- C4 witness: the theorem applied to a concrete secrets list that uses
the same secrets-manager ARN twice with different keys. -/
theorem claim4_witness :
    smPolicyResources (buildFargateService ("pgweb") ("dev") ("ap-southeast-2") ("abcd1234") dupSmArgs)
      = some (jsSetDedup (((dupSmArgs.secrets.getD []).filter
          (fun s => s.source == SecretSource.secretsManager)).map (fun s => s.valueFromArn)))
    ∧ (jsSetDedup (((dupSmArgs.secrets.getD []).filter
        (fun s => s.source == SecretSource.secretsManager)).map (fun s => s.valueFromArn))).count smArn
      = 1 :=
  claim4_sm_policy_dedups ("pgweb") ("dev") ("ap-southeast-2") ("abcd1234") dupSmArgs
    (dupSmArgs.secrets.getD []) smArn rfl (by decide)

/-- C5 counterexample: with two parameter-store entries sharing one ARN,
the `Resource` list of the generated parameter-store policy contains that ARN
twice, not once — the claimed "each distinct ARN exactly once" fails on
the code. -/
theorem claim5_counterexample :
    psPolicyResources (buildFargateService ("pgweb") ("dev") ("ap-southeast-2") ("abcd1234") dupPsArgs)
      = some [psArn, psArn]
    ∧ ¬ ([psArn, psArn].count psArn = 1) := by
  constructor
  · rfl
  · decide

/-- C5 (amended): the `Resource` list of the parameter-store policy is the list
of parameter-store ARNs exactly as filtered from the secrets list, in
input order and with duplicates preserved — unlike the secrets-manager
policy, no deduplication is applied. -/
theorem claim5_ps_policy_keeps_duplicates
    (name stack region randomHex : String) (args : FargateServiceArgs)
    (l : List SecretFromInput)
    (hs : args.secrets = some l)
    (hne : 0 < ((l.filter (fun s => s.source == SecretSource.parameterStore)).map
        (fun s => s.valueFromArn)).length) :
    psPolicyResources (buildFargateService name stack region randomHex args)
      = some ((l.filter (fun s => s.source == SecretSource.parameterStore)).map
          (fun s => s.valueFromArn)) := by
  have hex : ∃ x ∈ l, x.source = SecretSource.parameterStore := by
    obtain ⟨y, hy⟩ := List.length_pos_iff_exists_mem.mp hne
    obtain ⟨s, hsfil, -⟩ := List.mem_map.mp hy
    obtain ⟨hsl, hsrc⟩ := List.mem_filter.mp hsfil
    exact ⟨s, hsl, by simpa using hsrc⟩
  simp [buildFargateService, psPolicyResources, rolePolicyResources, hs, hne]
  exact hex

/-- C5 witness: the amended theorem applied to the duplicate-ARN input;
the `Resource` list keeps both occurrences. -/
theorem claim5_witness :
    psPolicyResources (buildFargateService ("pgweb") ("dev") ("ap-southeast-2") ("abcd1234") dupPsArgs)
      = some (((dupPsArgs.secrets.getD []).filter
          (fun s => s.source == SecretSource.parameterStore)).map (fun s => s.valueFromArn)) :=
  claim5_ps_policy_keeps_duplicates ("pgweb") ("dev") ("ap-southeast-2") ("abcd1234") dupPsArgs
    (dupPsArgs.secrets.getD []) rfl (by decide)

/-- C7: the container-definition compiler is one-to-one and
order-preserving: a list of n container specs yields exactly n target
container definitions, the i-th derived from the i-th spec and carrying
its name, image and port mappings. -/
theorem claim7_compile_one_to_one_order_preserving
    (region : String) (cs : List FargateContainerDefinition) :
    (compileContainers region cs).length = cs.length
    ∧ (∀ i : Nat, (compileContainers region cs)[i]?
        = (cs[i]?).map (compileContainer region))
    ∧ ∀ (i : Nat) (c : FargateContainerDefinition), cs[i]? = some c →
        (compileContainers region cs)[i]? = some (compileContainer region c)
        ∧ (compileContainer region c).name = c.name
        ∧ (compileContainer region c).image = c.image
        ∧ (compileContainer region c).portMappings = c.portMappings := by
  refine ⟨List.length_map cs (compileContainer region), ?_, ?_⟩
  · intro i
    simp [compileContainers]
  · intro i c hc
    refine ⟨?_, rfl, rfl, rfl⟩
    simp [compileContainers, hc]

/-- C7 witness: the theorem applied to the one-container list that
`src/index.ts` passes. -/
theorem claim7_witness :
    (compileContainers ("ap-southeast-2") [pgwebContainer])[0]?
      = some (compileContainer ("ap-southeast-2") pgwebContainer)
    ∧ (compileContainer ("ap-southeast-2") pgwebContainer).name = pgwebContainer.name
    ∧ (compileContainer ("ap-southeast-2") pgwebContainer).image = pgwebContainer.image
    ∧ (compileContainer ("ap-southeast-2") pgwebContainer).portMappings
      = pgwebContainer.portMappings :=
  (claim7_compile_one_to_one_order_preserving ("ap-southeast-2") [pgwebContainer]).2.2
    0 pgwebContainer rfl

/-- C3: the action list of the generated listener rule assigns 1-based
sequential order to every pre-forward action and appends the forward
action (to the new target group) at the next index; in particular two
pre-forward actions yield `[{order 1, A}, {order 2, B}, {order 3,
forward}]`. -/
theorem claim3_listener_rule_action_order
    (acts : List RuleActionInput) (tg : String) :
    (listenerRuleActions acts tg).length = acts.length + 1
    ∧ (∀ (i : Nat) (a : RuleActionInput), acts[i]? = some a →
        (listenerRuleActions acts tg)[i]? = some (orderedOf (i + 1) a))
    ∧ (listenerRuleActions acts tg)[acts.length]?
        = some (forwardActionAt (acts.length + 1) tg)
    ∧ ∀ a b : RuleActionInput, listenerRuleActions [a, b] tg
        = [orderedOf 1 a, orderedOf 2 b, forwardActionAt 3 tg] := by
  refine ⟨?_, ?_, ?_, ?_⟩
  · simp [listenerRuleActions, assignOrders_length]
  · intro i a ha
    have hi : i < acts.length := by
      exact List.getElem?_eq_some.mp ha |>.1
    have hi2 : i < (assignOrders 1 acts).length := by
      rw [assignOrders_length]; exact hi
    rw [listenerRuleActions, List.getElem?_append, if_pos hi2, assignOrders_getElem?, ha]
    simp [Nat.add_comm]
  · rw [listenerRuleActions]
    have hlen : acts.length = (assignOrders 1 acts).length := (assignOrders_length acts 1).symm
    rw [hlen, List.getElem?_concat_length]
  · intro a b
    simp [listenerRuleActions, assignOrders, orderedOf, forwardActionAt]

/-- C3 witness: the theorem applied to the two concrete pre-forward
actions, checking both the indexed form and the fully evaluated list. -/
theorem claim3_witness :
    (listenerRuleActions [oidcAction, fixedAction] ("tg.arn"))[0]?
      = some (orderedOf 1 oidcAction)
    ∧ listenerRuleActions [oidcAction, fixedAction] ("tg.arn")
      = [orderedOf 1 oidcAction, orderedOf 2 fixedAction, forwardActionAt 3 ("tg.arn")] :=
  ⟨(claim3_listener_rule_action_order [oidcAction, fixedAction] ("tg.arn")).2.1
      0 oidcAction rfl,
    (claim3_listener_rule_action_order [oidcAction, fixedAction] ("tg.arn")).2.2.2
      oidcAction fixedAction⟩

/-- C9: defaults are applied before any constraint is checked or resource
derived.  For the in-repo constructor: with cpu/memory omitted the emitted
task definition carries cpu "256" and memory "512", and with the namespace
omitted the resource names use the generated `<name>-<stack>` value.  For
the newer compiler pipeline: an input omitting cpu, memory and namespace
is processed (defaulting, validation and graph derivation alike) exactly
as if cpu 256, memory 512 and the generated namespace had been written
explicitly. -/
theorem claim9_defaults_applied_first
    (name stack region randomHex : String)
    (args : FargateServiceArgs) (nargs : NewFargateServiceArgs)
    (hcpu : args.cpu = none) (hmem : args.memory = none) (hns : args.ns = none)
    (hncpu : nargs.cpu = none) (hnmem : nargs.memory = none) (hnns : nargs.ns = none) :
    (buildFargateService name stack region randomHex args).taskDefinition.cpu = "256"
    ∧ (buildFargateService name stack region randomHex args).taskDefinition.memory = "512"
    ∧ (buildFargateService name stack region randomHex args).securityGroup.logicalName
        = name ++ "-" ++ stack ++ "-service-sg"
    ∧ applyDefaults name stack nargs
        = applyDefaults name stack
            { nargs with cpu := some 256, memory := some 512
                         ns := some (name ++ "-" ++ stack) }
    ∧ compileService name stack region nargs
        = compileService name stack region
            { nargs with cpu := some 256, memory := some 512
                         ns := some (name ++ "-" ++ stack) } := by
  have h4 : applyDefaults name stack nargs
      = applyDefaults name stack
          { nargs with cpu := some 256, memory := some 512
                       ns := some (name ++ "-" ++ stack) } := by
    simp [applyDefaults, hncpu, hnmem, hnns]
  refine ⟨?_, ?_, ?_, h4, ?_⟩
  · have hproj : (buildFargateService name stack region randomHex args).taskDefinition.cpu
        = toString (args.cpu.getD 256) := by
      simp [buildFargateService]
    rw [hproj, hcpu]
    rfl
  · have hproj : (buildFargateService name stack region randomHex args).taskDefinition.memory
        = toString (args.memory.getD 512) := by
      simp [buildFargateService]
    rw [hproj, hmem]
    rfl
  · have hproj : (buildFargateService name stack region randomHex args).securityGroup.logicalName
        = (args.ns.getD (name ++ "-" ++ stack)) ++ "-service-sg" := by
      simp [buildFargateService]
    rw [hproj, hns]
    rfl
  · show compileResolved region (applyDefaults name stack nargs)
        = compileResolved region (applyDefaults name stack
            { nargs with cpu := some 256, memory := some 512
                         ns := some (name ++ "-" ++ stack) })
    exact congrArg (compileResolved region) h4

/-- C9 witness: the theorem applied to concrete inputs with cpu, memory
and namespace omitted. -/
theorem claim9_witness :
    (buildFargateService ("pgweb") ("dev") ("ap-southeast-2") ("abcd1234") baseArgs).taskDefinition.cpu = "256"
    ∧ (buildFargateService ("pgweb") ("dev") ("ap-southeast-2") ("abcd1234") baseArgs).taskDefinition.memory = "512"
    ∧ (buildFargateService ("pgweb") ("dev") ("ap-southeast-2") ("abcd1234") baseArgs).securityGroup.logicalName
        = "pgweb" ++ "-" ++ "dev" ++ "-service-sg"
    ∧ applyDefaults ("pgweb") ("dev") defaultedArgs
        = applyDefaults ("pgweb") ("dev")
            { defaultedArgs with cpu := some 256, memory := some 512
                                 ns := some ("pgweb" ++ "-" ++ "dev") }
    ∧ compileService ("pgweb") ("dev") ("ap-southeast-2") defaultedArgs
        = compileService ("pgweb") ("dev") ("ap-southeast-2")
            { defaultedArgs with cpu := some 256, memory := some 512
                                 ns := some ("pgweb" ++ "-" ++ "dev") } :=
  claim9_defaults_applied_first ("pgweb") ("dev") ("ap-southeast-2") ("abcd1234")
    baseArgs defaultedArgs rfl rfl rfl rfl rfl rfl

/-- C1: for every input whose resolved (cpu, memory) pair is not in the
canonical valid-pairs table, the compiler pipeline stops at validation,
returning the aggregate error (so no resource descriptor is produced), and
the violation list contains a message that literally names both the cpu
value and the memory value. -/
theorem claim1_invalid_combo_rejected
    (name stack region : String) (args : NewFargateServiceArgs)
    (h : comboKey (applyDefaults name stack args).cpu (applyDefaults name stack args).memory
      ∉ validCpuMemoryCombinations) :
    compileService name stack region args
      = .error (validationErrors (applyDefaults name stack args))
    ∧ invalidComboMessage (applyDefaults name stack args).cpu
        (applyDefaults name stack args).memory
      ∈ validationErrors (applyDefaults name stack args)
    ∧ mentions
        (invalidComboMessage (applyDefaults name stack args).cpu
          (applyDefaults name stack args).memory)
        (toString (applyDefaults name stack args).cpu)
    ∧ mentions
        (invalidComboMessage (applyDefaults name stack args).cpu
          (applyDefaults name stack args).memory)
        (toString (applyDefaults name stack args).memory) := by
  obtain ⟨t, ht⟩ : ∃ t, validationErrors (applyDefaults name stack args)
      = invalidComboMessage (applyDefaults name stack args).cpu
          (applyDefaults name stack args).memory :: t := by
    unfold validationErrors
    rw [if_neg h]
    exact ⟨_, rfl⟩
  have hval : validate (applyDefaults name stack args)
      = .error (validationErrors (applyDefaults name stack args)) := by
    unfold validate
    cases hv : validationErrors (applyDefaults name stack args) with
    | nil => rw [ht] at hv; exact absurd hv (List.cons_ne_nil _ _)
    | cons a t2 => rfl
  refine ⟨?_, ?_, ?_, ?_⟩
  · simp only [compileService, compileResolved, hval]
  · rw [ht]
    exact List.mem_cons_self _ _
  · refine ⟨[], (" CPU units and "
        ++ toString (applyDefaults name stack args).memory
        ++ "MB is not a valid CPU/memory combination").data, ?_⟩
    simp [invalidComboMessage, String.data_append, List.append_assoc]
  · refine ⟨(toString (applyDefaults name stack args).cpu ++ " CPU units and ").data,
      ("MB is not a valid CPU/memory combination").data, ?_⟩
    simp [invalidComboMessage, String.data_append, List.append_assoc]

/-- C1 witness: the theorem applied to a concrete input whose resolved
pair (300, 512) is absent from the combination table. -/
theorem claim1_witness :
    compileService ("pgweb-service") ("dev") ("ap-southeast-2") badComboArgs
      = .error (validationErrors (applyDefaults ("pgweb-service") ("dev") badComboArgs))
    ∧ invalidComboMessage (applyDefaults ("pgweb-service") ("dev") badComboArgs).cpu
        (applyDefaults ("pgweb-service") ("dev") badComboArgs).memory
      ∈ validationErrors (applyDefaults ("pgweb-service") ("dev") badComboArgs)
    ∧ mentions
        (invalidComboMessage (applyDefaults ("pgweb-service") ("dev") badComboArgs).cpu
          (applyDefaults ("pgweb-service") ("dev") badComboArgs).memory)
        (toString (applyDefaults ("pgweb-service") ("dev") badComboArgs).cpu)
    ∧ mentions
        (invalidComboMessage (applyDefaults ("pgweb-service") ("dev") badComboArgs).cpu
          (applyDefaults ("pgweb-service") ("dev") badComboArgs).memory)
        (toString (applyDefaults ("pgweb-service") ("dev") badComboArgs).memory) :=
  claim1_invalid_combo_rejected ("pgweb-service") ("dev") ("ap-southeast-2")
    badComboArgs (by decide)
